import Mathlib

/-!
Verification of the query understanding and routing pipeline of a
financial document question-answering server.

The Python source is shallowly embedded: each service method that the
properties below concern is translated into an executable Lean
definition.  Fallible Python code (code that may raise) is modelled
with `Except PyErr`; `try`/`except` blocks become `match` on the
`Except` value.  External collaborators (the ChromaDB collection, the
OpenAI completion client) are modelled as explicitly quantified
behaviour functions, so that theorems can range over every behaviour
of the collaborator.  Python floats are modelled as rationals (`ℚ`);
JSON values produced by `json.loads` are modelled by the inductive
`JVal` (with integer numerics), and the outcome of `json.loads` on an
arbitrary response body is modelled as `Option JVal`, quantified over
in the theorems.
-/

/-- Python exception classes that the embedded code can raise. -/
inductive PyErr where
  | attributeError
  | typeError
  | valueError
  | nameError
  | indexError
  | jsonDecodeError
  | runtimeError
  deriving Repr, DecidableEq

/-- JSON values as returned by `json.loads` (numbers restricted to
integers; the embedded code never depends on fractional numerics). -/
inductive JVal where
  | jnull
  | jbool (b : Bool)
  | jnum (n : Int)
  | jstr (s : String)
  | jarr (l : List JVal)
  | jobj (m : List (String × JVal))

/-- `d.get(k, dflt)` on a Python dict built by `json.loads`:
duplicate keys behave last-wins, matching CPython's JSON decoder. -/
def pyGet (m : List (String × JVal)) (k : String) (dflt : JVal) : JVal :=
  match m.reverse.find? (fun kv => kv.1 = k) with
  | some kv => kv.2
  | none => dflt

/-! ## Python string primitives

The Python string operations used by the embedded code, implemented by
structural recursion over the character list so that they evaluate
inside the kernel.  The questions and identifiers handled by the
pipeline are ASCII, for which these agree with CPython. -/

/-- `s.startswith(pre)`. -/
def pyStartsWith (s pre : String) : Bool :=
  pre.toList.isPrefixOf s.toList

/-- One pass of `str.replace`: replace non-overlapping occurrences of
`pat` left to right, with `fuel` bounding the number of steps (called
with the input length, which suffices since each step consumes at
least one character).  A non-empty pattern is assumed, as in the one
call site `doc_id.replace("metadata_", "")`. -/
def replaceChars (pat repl : List Char) : Nat → List Char → List Char
  | _, [] => []
  | 0, l => l
  | fuel + 1, c :: cs =>
    if pat ≠ [] ∧ pat.isPrefixOf (c :: cs) then
      repl ++ replaceChars pat repl fuel ((c :: cs).drop pat.length)
    else c :: replaceChars pat repl fuel cs

/-- `s.replace(pat, repl)` for non-empty `pat`. -/
def pyReplace (s pat repl : String) : String :=
  ⟨replaceChars pat.toList repl.toList s.toList.length s.toList⟩

/-- `s.strip()` (ASCII whitespace). -/
def pyStrip (s : String) : String :=
  ⟨((s.toList.dropWhile Char.isWhitespace).reverse.dropWhile
      Char.isWhitespace).reverse⟩

/-- `s.lower()` (ASCII). -/
def pyLower (s : String) : String := ⟨s.toList.map Char.toLower⟩

/-- `s.upper()` (ASCII). -/
def pyUpper (s : String) : String := ⟨s.toList.map Char.toUpper⟩

/-- Substring containment test over character lists. -/
def isInfixChars (needle : List Char) : List Char → Bool
  | [] => needle.isEmpty
  | c :: cs => needle.isPrefixOf (c :: cs) || isInfixChars needle cs

/-- Python's `needle in hay` on strings. -/
def pyInStr (needle hay : String) : Bool :=
  isInfixChars needle.toList hay.toList

/-- Maximal runs of characters satisfying `p`, in order. -/
def charRuns (p : Char → Bool) : List Char → List (List Char)
  | [] => []
  | c :: cs =>
    let r := charRuns p cs
    if p c then
      match cs with
      | [] => [[c]]
      | d :: _ =>
        if p d then
          match r with
          | run :: rest => (c :: run) :: rest
          | [] => [[c]]
        else [c] :: r
    else r

/-- `s.split()` with no argument: maximal runs of non-whitespace. -/
def pySplitWS (s : String) : List String :=
  (charRuns (fun c => !c.isWhitespace) s.toList).map (fun l => ⟨l⟩)

/-- Digits of a decimal literal. -/
def digitsToNat : List Char → Option Nat
  | [] => none
  | l =>
    if l.all Char.isDigit then
      some (l.foldl (fun acc c => acc * 10 + (c.toNat - '0'.toNat)) 0)
    else none

/-- `int(s)` on a trimmed decimal string with optional sign,
`ValueError` (`none`) otherwise. -/
def pyParseInt (s : String) : Option Int :=
  match (pyStrip s).toList with
  | '-' :: rest => (digitsToNat rest).map (fun n => -(n : Int))
  | '+' :: rest => (digitsToNat rest).map (fun n => (n : Int))
  | l => (digitsToNat l).map (fun n => (n : Int))

/-! ## Vector store: `VectorStoreWrapper.similarity_search_with_filter`
(src/server/storage/vector_store.py)                                  -/

/-- One raw hit of `collection.query`: parallel-array entry `i` of the
ChromaDB result (`ids`, `documents`, `distances`, `metadatas`). -/
structure RawHit where
  id : String
  document : String
  distance : ℚ
  metadata : List (String × JVal)

/-- A formatted search result dict as built in
`similarity_search_with_filter` (vector_store.py lines 156-164). -/
structure FHit where
  id : String
  document : String
  content : String
  similarity : ℚ
  distance : ℚ
  distance_type : String
  metadata : List (String × JVal)

/-- Distance-to-similarity conversion of vector_store.py lines 146-154:
distances up to 2 are treated as cosine (`1 - d`), larger ones as L2
(`1 / (1 + d)`), then the value is clamped to `[0, 1]`. -/
def computeSimilarity (distance : ℚ) : ℚ × String :=
  let (s, t) :=
    if distance ≤ 2 then (1 - distance, "cosine")
    else (1 / (1 + distance), "L2")
  (max 0 (min 1 s), t)

/-- The formatted result built from one raw hit (without the
metadata-id skip or the threshold filter). -/
def toFHit (h : RawHit) : FHit :=
  let st := computeSimilarity h.distance
  { id := h.id
    document := h.document
    content := h.document
    similarity := st.1
    distance := h.distance
    distance_type := st.2
    metadata := h.metadata }

/-- The result-formatting loop of vector_store.py lines 129-173:
skip ids starting with "metadata_", convert distance to similarity,
keep hits whose similarity reaches the threshold, in engine order. -/
def formatResults (threshold : ℚ) (raw : List RawHit) : List FHit :=
  raw.filterMap (fun h =>
    if pyStartsWith h.id "metadata_" then none
    else
      let r := toFHit h
      if threshold ≤ r.similarity then some r else none)

/-- C5: for any raw distance d ≥ 0 the computed similarity lies in
[0,1]; distances in the 0-2 range are mapped as cosine via 1 - d,
larger distances via 1 / (1 + d), both clamped to [0,1]; in particular
d = 0 yields similarity 1 and d = 2 yields similarity 0. -/
theorem similarity_in_unit_interval (d : ℚ) (hd : 0 ≤ d) :
    (0 ≤ (computeSimilarity d).1 ∧ (computeSimilarity d).1 ≤ 1) ∧
    (d ≤ 2 → computeSimilarity d = (max 0 (min 1 (1 - d)), "cosine")) ∧
    (2 < d → computeSimilarity d = (max 0 (min 1 (1 / (1 + d))), "L2")) ∧
    (computeSimilarity 0).1 = 1 ∧ (computeSimilarity 2).1 = 0 := by
  refine ⟨⟨le_max_left 0 _, ?_⟩, ?_, ?_, by norm_num [computeSimilarity],
    by norm_num [computeSimilarity]⟩
  · have h1 : min 1 (if d ≤ 2 then (1 - d, "cosine") else (1 / (1 + d), "L2")).1 ≤ 1 :=
      min_le_left 1 _
    simp only [computeSimilarity]
    split <;> exact max_le (by norm_num) (min_le_left 1 _)
  · intro h
    simp [computeSimilarity, h]
  · intro h
    simp [computeSimilarity, not_le.mpr h]

/-- Closed witness for `similarity_in_unit_interval` at d = 3. -/
theorem similarity_in_unit_interval_witness :
    (0 ≤ (computeSimilarity 3).1 ∧ (computeSimilarity 3).1 ≤ 1) ∧
    ((3 : ℚ) ≤ 2 → computeSimilarity 3 = (max 0 (min 1 (1 - 3)), "cosine")) ∧
    ((2 : ℚ) < 3 → computeSimilarity 3 = (max 0 (min 1 (1 / (1 + 3))), "L2")) ∧
    (computeSimilarity 0).1 = 1 ∧ (computeSimilarity 2).1 = 0 :=
  similarity_in_unit_interval 3 (by norm_num)

/-- A ChromaDB `where` clause on the `filename` field, as built in
vector_store.py lines 75-78. -/
inductive WhereFilter where
  | eqFilename (v : String)
  | inFilenames (vs : List String)

/-- `doc_id.replace("metadata_", "")` applied when the id starts with
"metadata_" (vector_store.py lines 68-73). -/
def stripMetaId (doc_id : String) : String :=
  if pyStartsWith doc_id "metadata_" then pyReplace doc_id "metadata_" ""
  else doc_id

/-- `VectorStoreWrapper.similarity_search_with_filter`
(vector_store.py lines 38-180).  `collQuery w n` models
`collection.query(query_texts=[query], n_results=n, where=w)` for the
fixed query text; `collGetAll` models the debugging `collection.get()`
call.  When `document_ids` is absent or empty, the unconditional
`print(..., filenames)` on line 80 raises `NameError` (the variable is
only assigned inside `if document_ids:`), which the enclosing `except`
turns into an empty result.  When the filtered query returns no hits,
the query is re-run without the filter and, if that returns hits, they
silently replace the filtered results (lines 110-123).  Any exception
in the body yields `[]` (lines 178-180). -/
def similarity_search_with_filter
    (collQuery : Option WhereFilter → Nat → Except PyErr (List RawHit))
    (collGetAll : Except PyErr Unit)
    (document_ids : Option (List String)) (n_results : Nat) (threshold : ℚ) :
    List FHit :=
  let body : Except PyErr (List FHit) := do
    match document_ids with
    | none => throw .nameError
    | some [] => throw .nameError
    | some ids =>
      let filenames := ids.map stripMetaId
      let whereFilter : WhereFilter :=
        if filenames.length = 1 then .eqFilename (filenames.headD "")
        else .inFilenames filenames
      let _ ← collGetAll
      let results ← collQuery (some whereFilter) n_results
      let results ←
        if results.isEmpty then do
          let noFilter ← collQuery none n_results
          pure (if noFilter.isEmpty then results else noFilter)
        else pure results
      pure (formatResults threshold results)
  match body with
  | .ok r => r
  | .error _ => []

/-- A chunk hit belonging to a document other than the one the caller
asked to search in. -/
def strayHit : RawHit :=
  { id := "chunk_1"
    document := "unrelated text"
    distance := 1/2
    metadata := [("filename", .jstr "other.pdf")] }

/-- An index behaviour for which the filtered query matches nothing
while the unfiltered query returns `strayHit`. -/
def strayEngine : Option WhereFilter → Nat → Except PyErr (List RawHit) :=
  fun w _ =>
    match w with
    | some _ => .ok []
    | none => .ok [strayHit]

/-- C10: the similarity search is not actually restricted to the
candidate document set: when the filtered query returns zero hits but
the unfiltered query returns hits, `similarity_search_with_filter`
silently substitutes the unfiltered results, so there are inputs for
which the returned chunks belong to documents outside the supplied
`document_ids`.  Here the caller restricts the search to
"report.pdf" yet receives a chunk of "other.pdf". -/
theorem similarity_search_escapes_document_filter :
    similarity_search_with_filter strayEngine (.ok ())
        (some ["report.pdf"]) 10 (1/10) = [toFHit strayHit] ∧
    pyGet strayHit.metadata "filename" (.jstr "")
      = .jstr "other.pdf" ∧
    ("other.pdf" : String) ∉ (["report.pdf"].map stripMetaId) := by
  refine ⟨?_, by rfl, by decide⟩
  simp only [similarity_search_with_filter, strayEngine, formatResults,
    strayHit, pyStartsWith]
  norm_num [toFHit, computeSimilarity, Except.bind, List.filterMap]
  rfl

/-! ## Retriever (src/server/services/answering/retriever.py) -/

/-- A processed chunk as built in `Retriever._process_chunks`
(retriever.py lines 129-139). -/
structure PChunk where
  content : String
  similarity_score : ℚ
  metadata : List (String × JVal)
  chunk_id : String
  document_id : JVal
  company : JVal
  year : JVal
  page : JVal
  chunk_index : JVal

/-- Standardisation of one raw search hit into a processed chunk. -/
def toPChunk (h : FHit) : PChunk :=
  { content := h.document
    similarity_score := h.similarity
    metadata := h.metadata
    chunk_id := h.id
    document_id := pyGet h.metadata "document_id" (.jstr "")
    company := pyGet h.metadata "company" (.jstr "")
    year := pyGet h.metadata "year" (.jstr "")
    page := pyGet h.metadata "page" (.jstr "")
    chunk_index := pyGet h.metadata "chunk_index" (.jnum 0) }

/-- The comparison of `processed.sort(key=similarity_score,
reverse=True)`: descending, non-strict. -/
def simLE (a b : PChunk) : Bool := b.similarity_score ≤ a.similarity_score

/-- `Retriever._process_chunks` (retriever.py lines 122-152):
standardise each hit, keep only chunks with non-whitespace content,
then sort by similarity score descending.  Python's `list.sort` is a
stable sort, so the result coincides with `List.mergeSort` under the
non-strict descending comparison. -/
def process_chunks (raw_chunks : List FHit) : List PChunk :=
  ((raw_chunks.map toPChunk).filter
      (fun c => pyStrip c.content ≠ "")).mergeSort simLE

/-- `Retriever._calculate_avg_similarity` (retriever.py lines 191-197). -/
def calculate_avg_similarity (chunks : List PChunk) : ℚ :=
  if chunks.isEmpty then 0
  else ((chunks.map (fun c => c.similarity_score)).sum) / chunks.length

/-- `RetrievalResult` (retriever.py lines 6-12), without the transient
logger plumbing. -/
structure RetrievalResult where
  chunks : List PChunk
  total_chunks : Nat
  avg_similarity : ℚ
  query_used : String

/-- One entry of `selected_documents`: a dict whose `'id'` key may be
missing; `doc.get('id')` is falsy when missing or the empty string. -/
structure SelDoc where
  id : Option String

/-- The comprehension filter `if doc.get('id')` of retriever.py line 55. -/
def truthyId (d : SelDoc) : Option String :=
  match d.id with
  | some s => if s = "" then none else some s
  | none => none

/-- The empty result of `Retriever._empty_result`. -/
def emptyRetrievalResult (question : String) : RetrievalResult :=
  { chunks := [], total_chunks := 0, avg_similarity := 0, query_used := question }

/-- `Retriever.retrieve` (retriever.py lines 27-92).  `search ids k t`
models `vector_store.similarity_search_with_filter` with those
arguments; the second component counts how many times the underlying
search capability was invoked. -/
def retrieve (search : List String → Nat → ℚ → Except PyErr (List FHit))
    (question : String) (selected_documents : List SelDoc)
    (top_k : Nat) (similarity_threshold : ℚ) : RetrievalResult × Nat :=
  if selected_documents.isEmpty then (emptyRetrievalResult question, 0)
  else
    let doc_ids := selected_documents.filterMap truthyId
    if doc_ids.isEmpty then (emptyRetrievalResult question, 0)
    else
      match search doc_ids top_k similarity_threshold with
      | .error _ => (emptyRetrievalResult question, 1)
      | .ok chunks =>
        let processed := process_chunks chunks
        ({ chunks := processed
           total_chunks := processed.length
           avg_similarity := calculate_avg_similarity processed
           query_used := question }, 1)

/-- C8: for every question and every search behaviour,
`Retriever.retrieve` on an empty candidate-document list returns a
result with `total_chunks = 0`, an empty chunk list and
`avg_similarity = 0`, without invoking the underlying search
capability (the invocation count is 0). -/
theorem retrieve_empty_candidates
    (search : List String → Nat → ℚ → Except PyErr (List FHit))
    (question : String) (top_k : Nat) (t : ℚ) :
    (retrieve search question [] top_k t).1.total_chunks = 0 ∧
    (retrieve search question [] top_k t).1.chunks = [] ∧
    (retrieve search question [] top_k t).1.avg_similarity = 0 ∧
    (retrieve search question [] top_k t).2 = 0 := by
  refine ⟨rfl, rfl, rfl, rfl⟩

/-! ## The retrieval post-processing contract (threshold, ranking,
stability, average) -/

theorem simLE_trans (a b c : PChunk) (h1 : simLE a b) (h2 : simLE b c) :
    simLE a c := by
  simp only [simLE, decide_eq_true_eq] at *
  exact le_trans h2 h1

theorem simLE_total (a b : PChunk) : simLE a b || simLE b a := by
  simp only [simLE, Bool.or_eq_true, decide_eq_true_eq]
  exact le_total b.similarity_score a.similarity_score

/-- On engine hits none of which is a bookkeeping `metadata_` record,
the formatting loop is exactly: convert every hit, keep those whose
similarity reaches the threshold. -/
theorem formatResults_eq_filter (t : ℚ) :
    ∀ raw : List RawHit,
      (∀ h ∈ raw, pyStartsWith h.id "metadata_" = false) →
      formatResults t raw
        = (raw.map toFHit).filter (fun r => t ≤ r.similarity)
  | [], _ => rfl
  | h :: tl, hmeta => by
    have hh : pyStartsWith h.id "metadata_" = false :=
      hmeta h (List.mem_cons_self h tl)
    have ih := formatResults_eq_filter t tl
      (fun x hx => hmeta x (List.mem_cons_of_mem h hx))
    by_cases hc : t ≤ (toFHit h).similarity
    · simp [formatResults, List.filterMap_cons, hh, hc, ← ih]
    · simp [formatResults, List.filterMap_cons, hh, hc, ← ih]

/-- Stability of the descending sort: the sorted list restricted to
any one similarity value lists those chunks in their original order. -/
theorem mergeSort_filter_simEq (l : List PChunk) (s : ℚ) :
    (l.mergeSort simLE).filter (fun c => c.similarity_score = s)
      = l.filter (fun c => c.similarity_score = s) := by
  have hall : ∀ c ∈ l.filter (fun c => decide (c.similarity_score = s)),
      c.similarity_score = s := by
    intro c hc
    simpa using (List.mem_filter.mp hc).2
  have hpw : (l.filter (fun c => decide (c.similarity_score = s))).Pairwise
      (fun a b => simLE a b = true) :=
    List.pairwise_of_forall_mem_list (by
      intro a ha b hb
      simp only [simLE, hall a ha, hall b hb, decide_eq_true_eq, le_refl])
  have hsub : List.Sublist
      (l.filter (fun c => decide (c.similarity_score = s)))
      (l.mergeSort simLE) :=
    List.sublist_mergeSort simLE_trans simLE_total hpw (List.filter_sublist l)
  have hsub2 : List.Sublist
      (l.filter (fun c => decide (c.similarity_score = s)))
      ((l.mergeSort simLE).filter (fun c => decide (c.similarity_score = s))) := by
    have h2 := hsub.filter (fun c => decide (c.similarity_score = s))
    simpa using h2
  have hlen : (l.filter (fun c => decide (c.similarity_score = s))).length
      = ((l.mergeSort simLE).filter
          (fun c => decide (c.similarity_score = s))).length := by
    rw [← List.countP_eq_length_filter, ← List.countP_eq_length_filter]
    exact ((List.mergeSort_perm l simLE).countP_eq _).symm
  exact (hsub2.eq_of_length hlen).symm

/-- The chunks the spec says survive: similarity at least the
threshold and non-whitespace content, in engine order. -/
def specSurvivors (t : ℚ) (raw : List RawHit) : List PChunk :=
  (raw.map (fun h => toPChunk (toFHit h))).filter
    (fun c => t ≤ c.similarity_score ∧ pyStrip c.content ≠ "")

/-- The arithmetic mean of the surviving similarities, 0 when none
survive — the spec's description of `avg_similarity`. -/
def specAvgSimilarity (t : ℚ) (raw : List RawHit) : ℚ :=
  if (specSurvivors t raw).isEmpty then 0
  else ((specSurvivors t raw).map (fun c => c.similarity_score)).sum
    / (specSurvivors t raw).length

/-- The filtering pipeline before sorting equals the spec's survivor
list. -/
theorem pipeline_eq_specSurvivors (t : ℚ) (raw : List RawHit)
    (hmeta : ∀ h ∈ raw, pyStartsWith h.id "metadata_" = false) :
    ((formatResults t raw).map toPChunk).filter
        (fun c => pyStrip c.content ≠ "")
      = specSurvivors t raw := by
  rw [formatResults_eq_filter t raw hmeta]
  have h1 : ((raw.map toFHit).map toPChunk).filter
        (fun c => t ≤ c.similarity_score)
      = ((raw.map toFHit).filter (fun r => t ≤ r.similarity)).map toPChunk := by
    rw [List.filter_map]
    rfl
  rw [← h1, List.filter_filter, specSurvivors, List.map_map]
  apply List.filter_congr
  intro c _
  rw [Bool.decide_and]
  simp [Bool.and_comm]

/-- C7: for every list of raw hits (none of them an internal
`metadata_` record), the retrieval result contains exactly the hits
whose similarity is at least `similarity_threshold` and whose content
is non-empty after trimming; the surviving hits are sorted by
similarity descending with ties keeping the original engine order;
and the average similarity equals the arithmetic mean of the
survivors' similarities, or 0 when none survive. -/
theorem process_chunks_contract (t : ℚ) (raw : List RawHit)
    (hmeta : ∀ h ∈ raw, pyStartsWith h.id "metadata_" = false) :
    (process_chunks (formatResults t raw)).Perm (specSurvivors t raw) ∧
    (process_chunks (formatResults t raw)).Pairwise
      (fun a b => b.similarity_score ≤ a.similarity_score) ∧
    (∀ s : ℚ, (process_chunks (formatResults t raw)).filter
        (fun c => c.similarity_score = s)
      = (specSurvivors t raw).filter (fun c => c.similarity_score = s)) ∧
    calculate_avg_similarity (process_chunks (formatResults t raw))
      = specAvgSimilarity t raw := by
  have hpipe := pipeline_eq_specSurvivors t raw hmeta
  have hperm : (process_chunks (formatResults t raw)).Perm
      (specSurvivors t raw) := by
    rw [process_chunks, hpipe]
    exact List.mergeSort_perm _ simLE
  refine ⟨hperm, ?_, ?_, ?_⟩
  · have h := List.sorted_mergeSort simLE_trans simLE_total
      (((formatResults t raw).map toPChunk).filter
        (fun c => pyStrip c.content ≠ ""))
    rw [process_chunks]
    exact h.imp (by intro a b hab; simpa [simLE] using hab)
  · intro s
    rw [process_chunks, hpipe]
    exact mergeSort_filter_simEq _ s
  · have hlen : (process_chunks (formatResults t raw)).length
        = (specSurvivors t raw).length := hperm.length_eq
    have hsum : ((process_chunks (formatResults t raw)).map
          (fun c => c.similarity_score)).sum
        = ((specSurvivors t raw).map (fun c => c.similarity_score)).sum :=
      (hperm.map (fun c => c.similarity_score)).sum_eq
    by_cases hS : specSurvivors t raw = []
    · have hP : process_chunks (formatResults t raw) = [] :=
        (hS ▸ hperm).eq_nil
      simp [calculate_avg_similarity, specAvgSimilarity, hP, hS]
    · have hP : process_chunks (formatResults t raw) ≠ [] := by
        intro h
        exact hS ((h ▸ hperm).symm.eq_nil)
      rw [calculate_avg_similarity, specAvgSimilarity,
        if_neg (by simpa [List.isEmpty_iff] using hP),
        if_neg (by simpa [List.isEmpty_iff] using hS), hlen, hsum]

/-- Concrete engine hits: two surviving chunks with tied similarity,
one whitespace-only chunk, one chunk below the threshold. -/
def witnessHits : List RawHit :=
  [ { id := "c1", document := "alpha", distance := 1/4, metadata := [] },
    { id := "c2", document := "   ", distance := 1/4, metadata := [] },
    { id := "c3", document := "beta", distance := 3/4, metadata := [] },
    { id := "c4", document := "gamma", distance := 1/4, metadata := [] } ]

/-- Closed witness for `process_chunks_contract`: threshold 1/2 over
four concrete hits — one below threshold, one with whitespace-only
content, two surviving with equal similarity. -/
theorem process_chunks_contract_witness :
    (process_chunks (formatResults (1/2) witnessHits)).Perm
        (specSurvivors (1/2) witnessHits) ∧
    (process_chunks (formatResults (1/2) witnessHits)).Pairwise
      (fun a b => b.similarity_score ≤ a.similarity_score) ∧
    (∀ s : ℚ, (process_chunks (formatResults (1/2) witnessHits)).filter
        (fun c => c.similarity_score = s)
      = (specSurvivors (1/2) witnessHits).filter
          (fun c => c.similarity_score = s)) ∧
    calculate_avg_similarity (process_chunks (formatResults (1/2) witnessHits))
      = specAvgSimilarity (1/2) witnessHits :=
  process_chunks_contract (1/2) witnessHits (by decide)

/-! ## Intent Extractor
(src/server/services/answering/intent_extractor.py)

One completion attempt either raises inside the client call or
returns a body; `json.loads` of that body is modelled by its outcome
`Option JVal`, quantified over all behaviours. -/

/-- Outcome of one `_call_llm` attempt. -/
inductive LLMOutcome where
  | callError
  | response (parsed : Option JVal)

/-- `ExtractedIntent` (intent_extractor.py lines 7-26). -/
structure ExtractedIntent where
  companies : List String
  years : List Int
  deriving DecidableEq

/-- `[c.lower() for c in companies]` with Python dynamics: iterating
a JSON array lower-cases each element (raising `AttributeError` on a
non-string), iterating a string yields its characters, iterating an
object yields its keys; non-iterable values raise `TypeError`. -/
def lowerCompanies : JVal → Except PyErr (List String)
  | .jarr l => l.mapM (fun v =>
      match v with
      | .jstr s => Except.ok (pyLower s)
      | _ => Except.error .attributeError)
  | .jstr s => .ok (s.toList.map (fun c => ⟨[c.toLower]⟩))
  | .jobj m => .ok (m.map (fun kv => pyLower kv.1))
  | _ => .error .typeError

/-- `int(y)` on a JSON value: numbers pass through, booleans coerce,
strings parse or raise `ValueError`, the rest raises `TypeError`. -/
def pyIntOf : JVal → Except PyErr Int
  | .jnum n => .ok n
  | .jbool b => .ok (if b then 1 else 0)
  | .jstr s =>
    match pyParseInt s with
    | some n => .ok n
    | none => .error .valueError
  | _ => .error .typeError

/-- `[int(y) for y in years]` with the same iteration dynamics. -/
def intYears : JVal → Except PyErr (List Int)
  | .jarr l => l.mapM pyIntOf
  | .jstr s => s.toList.mapM (fun c => pyIntOf (.jstr ⟨[c]⟩))
  | .jobj m => m.mapM (fun kv => pyIntOf (.jstr kv.1))
  | _ => .error .typeError

/-- `IntentExtractor._parse_response` (intent_extractor.py lines
132-144): the enclosing `try` catches only `json.JSONDecodeError` and
`TypeError`, returning the empty intent; `AttributeError` and
`ValueError` raised while normalising values propagate to the retry
loop.  A non-object JSON body raises `AttributeError` at
`data.get`. -/
def parse_response_intent (parsed : Option JVal) : Except PyErr ExtractedIntent :=
  let body : Except PyErr ExtractedIntent :=
    match parsed with
    | none => .error .jsonDecodeError
    | some (.jobj m) => do
      let cs ← lowerCompanies (pyGet m "companies" (.jarr []))
      let ys ← intYears (pyGet m "years" (.jarr []))
      pure ⟨cs, ys⟩
    | some _ => .error .attributeError
  match body with
  | .error .jsonDecodeError => .ok ⟨[], []⟩
  | .error .typeError => .ok ⟨[], []⟩
  | r => r

/-- One iteration body of the retry loop of `IntentExtractor.extract`:
`_call_llm` followed by `_parse_response`. -/
def intentAttempt (o : LLMOutcome) : Except PyErr ExtractedIntent :=
  match o with
  | .callError => .error .runtimeError
  | .response parsed => parse_response_intent parsed

/-- The retry loop of `IntentExtractor.extract` (lines 74-94) over the
attempt behaviours `b`, counting attempts; on the last failing attempt
the empty intent is returned. -/
def extractAttempts (b : Nat → LLMOutcome) (start : Nat) :
    Nat → ExtractedIntent × Nat
  | 0 => (⟨[], []⟩, 0)
  | remaining + 1 =>
    match intentAttempt (b start) with
    | .ok e => (e, 1)
    | .error _ =>
      if remaining = 0 then (⟨[], []⟩, 1)
      else
        let r := extractAttempts b (start + 1) remaining
        (r.1, r.2 + 1)

/-- `IntentExtractor.extract` (intent_extractor.py lines 55-94): an
empty (stripped) question short-circuits without any attempt. -/
def extract (b : Nat → LLMOutcome) (max_retries : Nat) (question : String) :
    ExtractedIntent × Nat :=
  if pyStrip question = "" then (⟨[], []⟩, 0)
  else extractAttempts b 0 max_retries

theorem extractAttempts_all_fail (b : Nat → LLMOutcome) :
    ∀ (n start : Nat), 0 < n →
      (∀ i, i < n → (intentAttempt (b (start + i))).isOk = false) →
      extractAttempts b start n = (⟨[], []⟩, n)
  | 0, _, hn, _ => absurd hn (by omega)
  | n + 1, start, _, hfail => by
    have h0 : (intentAttempt (b start)).isOk = false := by
      simpa using hfail 0 (by omega)
    rw [extractAttempts]
    cases he : intentAttempt (b start) with
    | ok v => rw [he] at h0; simp [Except.isOk, Except.toBool] at h0
    | error e =>
      by_cases hz : n = 0
      · simp [hz]
      · have ih := extractAttempts_all_fail b n (start + 1) (by omega)
          (fun i hi => by
            have := hfail (i + 1) (by omega)
            simpa [Nat.add_assoc, Nat.add_comm 1 i] using this)
        simp [hz, ih]

theorem extractAttempts_nonjson (b : Nat → LLMOutcome) :
    ∀ (n start i : Nat), i < n →
      (∀ j, j < i → (intentAttempt (b (start + j))).isOk = false) →
      b (start + i) = .response none →
      extractAttempts b start n = (⟨[], []⟩, i + 1)
  | 0, _, i, hi, _, _ => absurd hi (by omega)
  | n + 1, start, 0, _, _, hnone => by
    rw [extractAttempts]
    have : b start = .response none := by simpa using hnone
    rw [this]
    rfl
  | n + 1, start, i + 1, hi, hfail, hnone => by
    have h0 : (intentAttempt (b start)).isOk = false := by
      simpa using hfail 0 (by omega)
    rw [extractAttempts]
    cases he : intentAttempt (b start) with
    | ok v => rw [he] at h0; simp [Except.isOk, Except.toBool] at h0
    | error e =>
      have hz : n ≠ 0 := by omega
      have ih := extractAttempts_nonjson b n (start + 1) i (by omega)
        (fun j hj => by
          have := hfail (j + 1) (by omega)
          simpa [Nat.add_assoc, Nat.add_comm 1 j] using this)
        (by
          have : start + 1 + i = start + (i + 1) := by omega
          rw [this]
          exact hnone)
      simp [hz, ih]

/-- C3 (amended): for every non-empty question the extractor never
raises (it is a total function of the attempt behaviours); when every
attempt raises — completion-call failure, a JSON body that is not an
object, or a value for which normalisation raises — it performs
exactly `max_retries` sequential attempts and then returns the empty
intent.  However a response body that is not JSON at all does NOT
consume a retry: `_parse_response` catches `json.JSONDecodeError`
itself and returns the empty intent as that attempt's successful
result, so the first non-JSON body ends the loop. -/
theorem extract_retry_behavior (q : String) (b : Nat → LLMOutcome)
    (n : Nat) (hq : pyStrip q ≠ "") :
    ((∀ i, i < n → (intentAttempt (b i)).isOk = false) → 0 < n →
      extract b n q = (⟨[], []⟩, n)) ∧
    (∀ i, i < n → (∀ j, j < i → (intentAttempt (b j)).isOk = false) →
      b i = .response none →
      extract b n q = (⟨[], []⟩, i + 1)) := by
  constructor
  · intro hfail hn
    rw [extract, if_neg hq]
    exact extractAttempts_all_fail b n 0 hn (fun i hi => by simpa using hfail i hi)
  · intro i hi hfail hnone
    rw [extract, if_neg hq]
    exact extractAttempts_nonjson b n 0 i hi
      (fun j hj => by simpa using hfail j hj) (by simpa using hnone)

/-- Closed witness for `extract_retry_behavior`: with every attempt a
failing completion call, `extract` makes exactly 3 attempts and
returns the empty intent. -/
theorem extract_retry_behavior_witness :
    extract (fun _ => .callError) 3 "q" = (⟨[], []⟩, 3) :=
  (extract_retry_behavior "q" (fun _ => .callError) 3 (by decide)).1
    (fun _ _ => rfl) (by omega)

/-- C3 counterexample: with every attempt returning a non-JSON body,
`extract` returns the empty intent after exactly ONE attempt, not
after `max_retries = 3` attempts as the claim states. -/
theorem extract_nonjson_not_retried :
    extract (fun _ => .response none) 3 "q" = (⟨[], []⟩, 1) ∧
    (1 : Nat) ≠ 3 :=
  ⟨rfl, by decide⟩

/-! ## Question Classifier
(src/server/services/answering/question_classifier.py) -/

/-- `ClassificationResult` (question_classifier.py lines 21-46).  The
dataclass fields are duck-typed: `from_dict` stores whatever JSON
values were parsed, so the facets are modelled as `JVal`. -/
structure ClassificationResult where
  text : JVal
  recommendation : JVal
  charts : JVal
  preview : JVal

/-- The dataclass defaults: only text. -/
def defaultClassification : ClassificationResult :=
  { text := .jbool true
    recommendation := .jbool false
    charts := .jbool false
    preview := .jbool false }

/-- `ClassificationResult.from_dict` (lines 38-46). -/
def classification_from_dict (data : List (String × JVal)) : ClassificationResult :=
  { text := pyGet data "text" (.jbool true)
    recommendation := pyGet data "recommendation" (.jbool false)
    charts := pyGet data "charts" (.jbool false)
    preview := pyGet data "preview" (.jbool false) }

/-- `QuestionClassifier._parse_response` (lines 162-190): the fenced
code-block stripping acts on the raw body before `json.loads`, so it
is absorbed by quantifying over the parse outcome of the cleaned
body.  A body that does not parse raises `ValueError`; a JSON value
that is not an object raises `ValueError`; otherwise
`data["text"] = True` is forced before `from_dict` (assignment on a
Python dict is modelled by appending the pair under last-wins
lookup). -/
def parse_response_classify (parsed : Option JVal) :
    Except PyErr ClassificationResult :=
  match parsed with
  | none => .error .valueError
  | some (.jobj m) =>
    .ok (classification_from_dict (m ++ [("text", .jbool true)]))
  | some _ => .error .valueError

/-- One iteration body of the retry loop of
`QuestionClassifier.classify`. -/
def classifyAttempt (o : LLMOutcome) : Except PyErr ClassificationResult :=
  match o with
  | .callError => .error .runtimeError
  | .response parsed => parse_response_classify parsed

/-- The retry loop of `QuestionClassifier.classify` (lines 104-124). -/
def classifyAttempts (b : Nat → LLMOutcome) (start : Nat) :
    Nat → ClassificationResult × Nat
  | 0 => (defaultClassification, 0)
  | remaining + 1 =>
    match classifyAttempt (b start) with
    | .ok c => (c, 1)
    | .error _ =>
      if remaining = 0 then (defaultClassification, 1)
      else
        let r := classifyAttempts b (start + 1) remaining
        (r.1, r.2 + 1)

/-- `QuestionClassifier.classify` (lines 82-124). -/
def classify (b : Nat → LLMOutcome) (max_retries : Nat) (question : String) :
    ClassificationResult × Nat :=
  if pyStrip question = "" then (defaultClassification, 0)
  else classifyAttempts b 0 max_retries

theorem parse_classify_text (v : JVal) (r : ClassificationResult)
    (h : parse_response_classify (some v) = .ok r) : r.text = .jbool true := by
  cases v with
  | jobj m =>
    simp only [parse_response_classify, Except.ok.injEq] at h
    subst h
    simp [classification_from_dict, pyGet, List.reverse_append, List.find?]
  | jnull => simp [parse_response_classify] at h
  | jbool b => simp [parse_response_classify] at h
  | jnum n => simp [parse_response_classify] at h
  | jstr s => simp [parse_response_classify] at h
  | jarr l => simp [parse_response_classify] at h

theorem classifyAttempts_text (b : Nat → LLMOutcome) :
    ∀ (n start : Nat), (classifyAttempts b start n).1.text = .jbool true
  | 0, _ => rfl
  | n + 1, start => by
    rw [classifyAttempts]
    cases he : classifyAttempt (b start) with
    | ok c =>
      have : c.text = .jbool true := by
        cases hb : b start with
        | callError => rw [hb] at he; simp [classifyAttempt] at he
        | response parsed =>
          rw [hb] at he
          cases parsed with
          | none => simp [classifyAttempt, parse_response_classify] at he
          | some v => exact parse_classify_text v c he
      simpa using this
    | error e =>
      by_cases hz : n = 0
      · simp [hz, defaultClassification]
      · have ih := classifyAttempts_text b n (start + 1)
        simp [hz, ih]

/-- C4: for every question, every retry budget and every behaviour of
the completion service (call failures, non-JSON bodies, non-object
JSON, or a response explicitly containing `text: false`), the
classification result has its text facet equal to `true`; and the
invariant is enforced at the parsing boundary: every successful
`_parse_response` outcome already has `text = true`. -/
theorem classify_text_always_true (b : Nat → LLMOutcome) (n : Nat)
    (q : String) :
    (classify b n q).1.text = .jbool true ∧
    (∀ (v : JVal) (r : ClassificationResult),
      parse_response_classify (some v) = .ok r → r.text = .jbool true) := by
  constructor
  · rw [classify]
    by_cases hq : pyStrip q = ""
    · simp [hq, defaultClassification]
    · simp [hq, classifyAttempts_text b n 0]
  · exact parse_classify_text

/-- Closed witness for `classify_text_always_true`: the completion
service explicitly answers `{"text": false}`, yet both the parsing
boundary and the classify result report `text = true`. -/
theorem classify_text_always_true_witness :
    (classify (fun _ => .response (some (.jobj [("text", .jbool false)])))
        3 "Compare Apple and Google").1.text = .jbool true ∧
    (classification_from_dict
        ([("text", .jbool false)] ++ [("text", .jbool true)])).text
      = .jbool true :=
  ⟨(classify_text_always_true
      (fun _ => .response (some (.jobj [("text", .jbool false)])))
      3 "Compare Apple and Google").1,
   (classify_text_always_true (fun _ => .callError) 1 "q").2
      (.jobj [("text", .jbool false)]) _ rfl⟩

/-! ## Query Router dispatch
(src/server/services/query_router.py, `route_query`) -/

/-- `QueryAnalysis` (query_router.py lines 14-22). -/
structure QueryAnalysis where
  query_type : String
  confidence : ℚ
  symbols : List String
  is_prediction : Bool
  is_quantitative : Bool
  reasoning : String

/-- `RouterResult` (query_router.py lines 25-33), restricted to the
fields the routing contract concerns; the wall-clock
`processing_time` and the payload dictionaries are not modelled. -/
structure RouterResult where
  source : String
  answer : String
  sent_analysis : Option String

/-- The terminal error result built in the `except` clause of
`route_query` (lines 90-98). -/
def routerErrorResult : RouterResult :=
  { source := "error"
    answer := "I encountered an error while processing your query. Please try again."
    sent_analysis := none }

/-- The branch selection of `route_query` (lines 77-88): unknown query
types fall back to the RAG branch. -/
def dispatchBranch (a : QueryAnalysis)
    (hRag hFin hMix : Except PyErr RouterResult) : Except PyErr RouterResult :=
  if a.query_type = "rag" then hRag
  else if a.query_type = "finance" then hFin
  else if a.query_type = "mixed" then hMix
  else hRag

/-- `QueryRouter.route_query` (lines 63-98) over the behaviours of
the analysis step and of the three dispatch branches; the second
component counts how many times a branch was dispatched.  Any raise
is caught by the enclosing `except` and converted to the terminal
error result. -/
def route_query (analyze : Except PyErr QueryAnalysis)
    (hRag hFin hMix : Except PyErr RouterResult) : RouterResult × Nat :=
  match analyze with
  | .error _ => (routerErrorResult, 0)
  | .ok a =>
    match dispatchBranch a hRag hFin hMix with
    | .ok r => (r, 1)
    | .error _ => (routerErrorResult, 1)

/-- C9: for every behaviour of the analysis step and of the dispatched
branches, `route_query` returns a result (it never raises — it is a
total function of those behaviours), dispatches at most once (no
retry of the error state within the request), and converts any
uncaught exception during dispatch into the terminal result with
`source = "error"` and the apologetic answer. -/
theorem route_query_terminal_error (analyze : Except PyErr QueryAnalysis)
    (hRag hFin hMix : Except PyErr RouterResult) :
    (route_query analyze hRag hFin hMix).2 ≤ 1 ∧
    (∀ e, analyze = .error e →
      route_query analyze hRag hFin hMix = (routerErrorResult, 0)) ∧
    (∀ a e, analyze = .ok a → dispatchBranch a hRag hFin hMix = .error e →
      route_query analyze hRag hFin hMix = (routerErrorResult, 1)) ∧
    routerErrorResult.source = "error" := by
  refine ⟨?_, ?_, ?_, rfl⟩
  · cases analyze with
    | error e => simp [route_query]
    | ok a =>
      cases hd : dispatchBranch a hRag hFin hMix with
      | ok r => simp [route_query, hd]
      | error e => simp [route_query, hd]
  · intro e he
    subst he
    rfl
  · intro a e ha hd
    subst ha
    simp [route_query, hd]

/-- Closed witness for `route_query_terminal_error`: the RAG branch
raises and the router returns the apologetic error result after one
dispatch. -/
theorem route_query_terminal_error_witness :
    route_query (.ok ⟨"rag", 1/2, [], false, false, ""⟩)
        (.error .runtimeError) (.ok routerErrorResult) (.ok routerErrorResult)
      = (routerErrorResult, 1) :=
  (route_query_terminal_error (.ok ⟨"rag", 1/2, [], false, false, ""⟩)
      (.error .runtimeError) (.ok routerErrorResult) (.ok routerErrorResult)).2.2.1
    ⟨"rag", 1/2, [], false, false, ""⟩ .runtimeError rfl rfl

/-! ## Query Router keyword fallback
(src/server/services/query_router.py, `_simple_analysis`) -/

/-- The finance keyword list of `_simple_analysis`
(query_router.py lines 163-170). -/
def finance_keywords : List String :=
  [ "price", "stock", "market", "trading", "prediction", "forecast",
    "current", "real-time", "live", "quote", "chart", "trend",
    "volume", "market cap", "pe ratio", "dividend", "earnings",
    "technical", "fundamental", "analyst", "target price",
    "compare", "comparison", "performance", "historical", "graph",
    "visualization", "pie chart", "line chart", "summary" ]

/-- The RAG keyword list of `_simple_analysis` (lines 173-177). -/
def rag_keywords : List String :=
  [ "strategy", "business model", "competitive", "risk", "opportunity",
    "management", "leadership", "product", "service", "customer",
    "revenue", "growth", "expansion", "acquisition", "merger",
    "report", "filing", "annual", "quarterly", "10-k", "10-q" ]

/-- A regex word character (`\w`). -/
def isWordChar (c : Char) : Bool := c.isAlphanum || c = '_'

/-- `re.findall(r'\b[A-Z]{1,5}\b', question.upper())`: the matches are
exactly the maximal word-character runs consisting solely of uppercase
letters with length between 1 and 5, in order. -/
def findTickerSymbols (question : String) : List String :=
  (charRuns isWordChar (pyUpper question).toList).filterMap
    (fun r => if r.length ≤ 5 && r.all Char.isUpper then some ⟨r⟩ else none)

/-- `sum(1 for keyword in keywords if keyword in question_lower)`. -/
def keywordScore (keywords : List String) (question_lower : String) : Nat :=
  (keywords.filter (fun k => pyInStr k question_lower)).length

/-- `QueryRouter._simple_analysis` (query_router.py lines 158-208).
The `reasoning` field renders the scores with Lean's list printing
rather than Python's `repr` quoting; no property depends on it. -/
def simple_analysis (question : String) : QueryAnalysis :=
  let question_lower := pyLower question
  let symbols := findTickerSymbols question
  let finance_score := keywordScore finance_keywords question_lower
  let rag_score := keywordScore rag_keywords question_lower
  let qc : String × ℚ :=
    if finance_score > rag_score ∧ finance_score > 0 then
      ("finance", min (9/10 : ℚ) ((finance_score : ℚ) / 5))
    else if rag_score > finance_score ∧ rag_score > 0 then
      ("rag", min (9/10 : ℚ) ((rag_score : ℚ) / 5))
    else if symbols ≠ [] then ("finance", (7/10 : ℚ))
    else ("rag", (1/2 : ℚ))
  { query_type := qc.1
    confidence := qc.2
    symbols := symbols
    is_prediction := pyInStr "prediction" question_lower
      || pyInStr "forecast" question_lower
    is_quantitative := finance_score > 0
    reasoning := "Keyword analysis: finance=" ++ toString finance_score
      ++ ", rag=" ++ toString rag_score ++ ", symbols=" ++ toString symbols }

/-- The concrete question of the router-fallback property. -/
def marketQuestion : String :=
  "What is the current stock price of AAPL and recent trend?"

/-- C6 (amended): the keyword fallback yields `finance` (the spec's
`market`) with confidence `min(0.9, score/5)` when the finance score
strictly exceeds the RAG score (such a score is automatically
positive); symmetrically `rag` (the spec's `retrieval`); when the two
scores are EQUAL — at zero or at any other value, which is the only
way both strict branches fail — it yields `finance` at confidence 0.7
if ticker-like tokens were found and `rag` at 0.5 otherwise.  The
market question about AAPL yields `finance` with positive
confidence. -/
theorem simple_analysis_cases (q : String) :
    (keywordScore finance_keywords (pyLower q)
        > keywordScore rag_keywords (pyLower q) ∧
      keywordScore finance_keywords (pyLower q) > 0 →
      (simple_analysis q).query_type = "finance" ∧
      (simple_analysis q).confidence
        = min (9/10 : ℚ)
            ((keywordScore finance_keywords (pyLower q) : ℚ) / 5)) ∧
    (keywordScore rag_keywords (pyLower q)
        > keywordScore finance_keywords (pyLower q) ∧
      keywordScore rag_keywords (pyLower q) > 0 →
      (simple_analysis q).query_type = "rag" ∧
      (simple_analysis q).confidence
        = min (9/10 : ℚ) ((keywordScore rag_keywords (pyLower q) : ℚ) / 5)) ∧
    (keywordScore finance_keywords (pyLower q)
        = keywordScore rag_keywords (pyLower q) →
      findTickerSymbols q ≠ [] →
      (simple_analysis q).query_type = "finance" ∧
      (simple_analysis q).confidence = 7/10) ∧
    (keywordScore finance_keywords (pyLower q)
        = keywordScore rag_keywords (pyLower q) →
      findTickerSymbols q = [] →
      (simple_analysis q).query_type = "rag" ∧
      (simple_analysis q).confidence = 1/2) ∧
    ((simple_analysis marketQuestion).query_type = "finance" ∧
      0 < (simple_analysis marketQuestion).confidence) := by
  refine ⟨?_, ?_, ?_, ?_, ?_⟩
  · intro h
    unfold simple_analysis
    simp only []
    rw [if_pos h]
    exact ⟨rfl, rfl⟩
  · intro h
    have h1 : ¬(keywordScore finance_keywords (pyLower q)
        > keywordScore rag_keywords (pyLower q) ∧
        keywordScore finance_keywords (pyLower q) > 0) := by omega
    unfold simple_analysis
    simp only []
    rw [if_neg h1, if_pos h]
    exact ⟨rfl, rfl⟩
  · intro heq hsym
    have h1 : ¬(keywordScore finance_keywords (pyLower q)
        > keywordScore rag_keywords (pyLower q) ∧
        keywordScore finance_keywords (pyLower q) > 0) := by omega
    have h2 : ¬(keywordScore rag_keywords (pyLower q)
        > keywordScore finance_keywords (pyLower q) ∧
        keywordScore rag_keywords (pyLower q) > 0) := by omega
    unfold simple_analysis
    simp only []
    rw [if_neg h1, if_neg h2, if_pos hsym]
    exact ⟨rfl, rfl⟩
  · intro heq hsym
    have h1 : ¬(keywordScore finance_keywords (pyLower q)
        > keywordScore rag_keywords (pyLower q) ∧
        keywordScore finance_keywords (pyLower q) > 0) := by omega
    have h2 : ¬(keywordScore rag_keywords (pyLower q)
        > keywordScore finance_keywords (pyLower q) ∧
        keywordScore rag_keywords (pyLower q) > 0) := by omega
    unfold simple_analysis
    simp only []
    rw [if_neg h1, if_neg h2, if_neg (not_not_intro hsym)]
    exact ⟨rfl, rfl⟩
  · have hf : keywordScore finance_keywords (pyLower marketQuestion) = 4 := by
      decide
    have hr : keywordScore rag_keywords (pyLower marketQuestion) = 0 := by
      decide
    have hcond : keywordScore finance_keywords (pyLower marketQuestion)
        > keywordScore rag_keywords (pyLower marketQuestion) ∧
        keywordScore finance_keywords (pyLower marketQuestion) > 0 := by
      omega
    constructor
    · unfold simple_analysis
      simp only []
      rw [if_pos hcond]
    · unfold simple_analysis
      simp only []
      rw [if_pos hcond]
      show (0 : ℚ) < min (9/10)
        ((keywordScore finance_keywords (pyLower marketQuestion) : ℚ) / 5)
      rw [hf]
      norm_num

/-- Closed witness for `simple_analysis_cases`: the AAPL market
question falls in the finance branch with confidence
min(0.9, 4/5). -/
theorem simple_analysis_cases_witness :
    (simple_analysis marketQuestion).query_type = "finance" ∧
    (simple_analysis marketQuestion).confidence
      = min (9/10 : ℚ)
          ((keywordScore finance_keywords (pyLower marketQuestion) : ℚ) / 5) :=
  (simple_analysis_cases marketQuestion).1 (by constructor <;> decide)

/-- C6 counterexample: on "stock strategy" the two keyword scores tie
at 1 (not at 0) and a ticker-like token ("STOCK") is found, yet the
code still answers `finance` at confidence 0.7 — whereas the claim
allows `market`/0.7 only for a tie at zero and demands
`retrieval`/0.5 here. -/
theorem simple_analysis_nonzero_tie :
    keywordScore finance_keywords (pyLower "stock strategy") = 1 ∧
    keywordScore rag_keywords (pyLower "stock strategy") = 1 ∧
    findTickerSymbols "stock strategy" = ["STOCK"] ∧
    (simple_analysis "stock strategy").query_type = "finance" ∧
    (simple_analysis "stock strategy").confidence = 7/10 ∧
    (simple_analysis "stock strategy").query_type ≠ "rag" ∧
    (simple_analysis "stock strategy").confidence ≠ 1/2 := by
  have hf : keywordScore finance_keywords (pyLower "stock strategy") = 1 := by
    decide
  have hr : keywordScore rag_keywords (pyLower "stock strategy") = 1 := by
    decide
  have hs : findTickerSymbols "stock strategy" = ["STOCK"] := by decide
  have h1 : ¬(keywordScore finance_keywords (pyLower "stock strategy")
      > keywordScore rag_keywords (pyLower "stock strategy") ∧
      keywordScore finance_keywords (pyLower "stock strategy") > 0) := by
    omega
  have h2 : ¬(keywordScore rag_keywords (pyLower "stock strategy")
      > keywordScore finance_keywords (pyLower "stock strategy") ∧
      keywordScore rag_keywords (pyLower "stock strategy") > 0) := by
    omega
  have h3 : findTickerSymbols "stock strategy" ≠ [] := by
    rw [hs]
    simp
  refine ⟨hf, hr, hs, ?_, ?_, ?_, ?_⟩
  · unfold simple_analysis
    simp only []
    rw [if_neg h1, if_neg h2, if_pos h3]
  · unfold simple_analysis
    simp only []
    rw [if_neg h1, if_neg h2, if_pos h3]
  · unfold simple_analysis
    simp only []
    rw [if_neg h1, if_neg h2, if_pos h3]
    simp
  · unfold simple_analysis
    simp only []
    rw [if_neg h1, if_neg h2, if_pos h3]
    norm_num

/-! ## Document Filter
(src/server/services/answering/document_filter.py and
`VectorStoreWrapper.get_documents_with_filters` in
src/server/storage/vector_store.py) -/

/-- One value of a ChromaDB `where` dictionary built by
`DocumentFilter.filter_by_intent`: equality or `$in` on a string or
integer field. -/
inductive WhereCond where
  | eqStr (v : String)
  | inStr (vs : List String)
  | eqInt (v : Int)
  | inInt (vs : List Int)

/-- A `where` dictionary: ordered field/condition pairs. -/
abbrev WhereClause := List (String × WhereCond)

/-- The `where_conditions` construction of `filter_by_intent`
(document_filter.py lines 27-42). -/
def buildWhereConditions (intent : ExtractedIntent) : WhereClause :=
  (if intent.companies ≠ [] then
    [("company",
      if intent.companies.length = 1 then
        WhereCond.eqStr (intent.companies.headD "")
      else WhereCond.inStr intent.companies)]
  else []) ++
  (if intent.years ≠ [] then
    [("year",
      if intent.years.length = 1 then WhereCond.eqInt (intent.years.headD 0)
      else WhereCond.inInt intent.years)]
  else [])

/-- File-level metadata stored with a collection item. -/
structure DocMetadata where
  filename : Option String
  company : Option String
  year : Option Int
  deriving DecidableEq

/-- One item of a `collection.get` result. -/
structure CollItem where
  id : String
  metadata : DocMetadata
  deriving DecidableEq

/-- A document record as built by `get_documents_with_filters`
(vector_store.py lines 204-212), with the `.get(..., default)`
fallbacks applied. -/
structure DocInfo where
  id : String
  filename : String
  company : String
  year : Int
  metadata : DocMetadata
  deriving DecidableEq

def mkDocInfo (it : CollItem) : DocInfo :=
  { id := it.id
    filename := it.metadata.filename.getD ""
    company := it.metadata.company.getD ""
    year := it.metadata.year.getD 0
    metadata := it.metadata }

/-- `VectorStoreWrapper.get_documents_with_filters` (vector_store.py
lines 182-222): any exception from the collection is caught and an
EMPTY list returned, so an index failure is indistinguishable from a
zero-match for the caller. -/
def get_documents_with_filters
    (collGet : WhereClause → Except PyErr (List CollItem))
    (whereClause : WhereClause) (limit : Nat) : List DocInfo :=
  match collGet whereClause with
  | .error _ => []
  | .ok items =>
    ((items.filter (fun it => pyStartsWith it.id "metadata_")).map
      mkDocInfo).take limit

/-- `FilterResult` (document_filter.py lines 8-15). -/
structure FilterResult where
  documents : List DocInfo
  total_found : Nat
  filter_applied : String
  companies_found : List String
  years_found : List Int
  deriving DecidableEq

/-- Python `sorted` on a list of integers (ascending insertion
sort — any stable sort gives the same list). -/
def insertAsc (x : Int) : List Int → List Int
  | [] => [x]
  | y :: ys => if x ≤ y then x :: y :: ys else y :: insertAsc x ys

def pySortedInts (l : List Int) : List Int := l.foldr insertAsc []

/-- The `filter_description` construction of `filter_by_intent`
(document_filter.py lines 50-57). -/
def filterDescription (intent : ExtractedIntent) : String :=
  let parts :=
    (if intent.companies ≠ [] then
      ["Companies: " ++ String.intercalate ", " intent.companies]
    else []) ++
    (if intent.years ≠ [] then
      ["Years: " ++ String.intercalate ", "
        ((pySortedInts intent.years).map toString)]
    else [])
  if parts ≠ [] then String.intercalate " | " parts else "Intent-based"

/-- `DocumentFilter.filter_by_intent` together with
`_get_recent_documents` (document_filter.py lines 23-88), over a
store interface: `gdwf` is the store's `get_documents_with_filters`
and `get_recent_documents` its `get_recent_documents` method when the
store has one.  The shipped `VectorStoreWrapper` defines NO
`get_recent_documents`, so in the fallback branch the attribute
lookup `self.vector_store.get_recent_documents` raises
`AttributeError` (the `none` case). -/
def filter_by_intent
    (gdwf : WhereClause → Except PyErr (List DocInfo))
    (get_recent_documents : Option (Nat → List DocInfo))
    (intent : ExtractedIntent) : Except PyErr FilterResult :=
  match gdwf (buildWhereConditions intent) with
  | .ok documents =>
    .ok { documents := documents
          total_found := documents.length
          filter_applied := filterDescription intent
          companies_found := intent.companies
          years_found :=
            if intent.years ≠ [] then pySortedInts intent.years else [] }
  | .error _ =>
    match get_recent_documents with
    | some f =>
      .ok { documents := f 10
            total_found := (f 10).length
            filter_applied := "Recent documents fallback"
            companies_found := intent.companies
            years_found := intent.years }
    | none => .error .attributeError

/-- `filter_by_intent` as wired in the repository: the store is the
`VectorStoreWrapper` over the ChromaDB collection behaviour
`collGet`; its `get_documents_with_filters` never raises, and it has
no `get_recent_documents` method. -/
def filter_by_intent_wrapper
    (collGet : WhereClause → Except PyErr (List CollItem))
    (intent : ExtractedIntent) : Except PyErr FilterResult :=
  filter_by_intent
    (fun w => .ok (get_documents_with_filters collGet w 50)) none intent

/-- C1 exhibit: the claim fails on the code.  With the shipped
wrapper, an index failure (the collection raising) is swallowed into
an ok, EMPTY result whose `filter_applied` is the ordinary intent
description — not the ≤10 most-recent fallback and not marked as a
fallback.  And on any store whose query DOES raise through to
`filter_by_intent`, the fallback branch itself raises
`AttributeError`, because `VectorStoreWrapper` has no
`get_recent_documents` method. -/
theorem filter_by_intent_fallback_broken :
    filter_by_intent_wrapper (fun _ => .error .runtimeError)
        ⟨["apple"], [2023]⟩
      = .ok { documents := []
              total_found := 0
              filter_applied := "Companies: apple | Years: 2023"
              companies_found := ["apple"]
              years_found := [2023] } ∧
    ("Companies: apple | Years: 2023" : String)
      ≠ "Recent documents fallback" ∧
    filter_by_intent (fun _ => .error .runtimeError) none ⟨["apple"], [2023]⟩
      = .error .attributeError := by
  refine ⟨by rfl, by decide, rfl⟩

/-! ## Forecasting Service horizon parsing
(src/server/services/finance/prediction_service.py,
`PredictionService._parse_horizon`) -/

/-- A Python `datetime` restricted to its date part (the code only
uses `.date()` and day arithmetic). -/
structure PyDate where
  year : Int
  month : Int
  day : Int
  deriving DecidableEq

def isLeapYear (y : Int) : Bool :=
  (y % 4 = 0 && y % 100 ≠ 0) || y % 400 = 0

def daysInMonth (y m : Int) : Int :=
  if m = 2 then (if isLeapYear y then 29 else 28)
  else if m = 4 ∨ m = 6 ∨ m = 9 ∨ m = 11 then 30
  else 31

/-- Days since 1970-01-01 in the proleptic Gregorian calendar
(standard civil-from-days arithmetic). -/
def daysFromCivil (y m d : Int) : Int :=
  let y2 := if m ≤ 2 then y - 1 else y
  let era := y2.fdiv 400
  let yoe := y2 - era * 400
  let doy := (153 * (if m > 2 then m - 3 else m + 9) + 2).fdiv 5 + d - 1
  let doe := yoe * 365 + yoe.fdiv 4 - yoe.fdiv 100 + doy
  era * 146097 + doe - 719468

/-- Inverse of `daysFromCivil`. -/
def civilFromDays (z0 : Int) : PyDate :=
  let z := z0 + 719468
  let era := z.fdiv 146097
  let doe := z - era * 146097
  let yoe := (doe - doe.fdiv 1460 + doe.fdiv 36524 - doe.fdiv 146096).fdiv 365
  let y := yoe + era * 400
  let doy := doe - (365 * yoe + yoe.fdiv 4 - yoe.fdiv 100)
  let mp := (5 * doy + 2).fdiv 153
  let d := doy - (153 * mp + 2).fdiv 5 + 1
  let m := if mp < 10 then mp + 3 else mp - 9
  ⟨if m ≤ 2 then y + 1 else y, m, d⟩

def toOrdinal (dt : PyDate) : Int := daysFromCivil dt.year dt.month dt.day

/-- `dt + timedelta(days=n)`. -/
def addDays (dt : PyDate) (n : Int) : PyDate := civilFromDays (toOrdinal dt + n)

/-- `datetime(y, m, d)`: raises `ValueError` on an invalid date. -/
def mkDatetime (y m d : Int) : Except PyErr PyDate :=
  if 1 ≤ m ∧ m ≤ 12 ∧ 1 ≤ d ∧ d ≤ daysInMonth y m then .ok ⟨y, m, d⟩
  else .error .valueError

/-- `np.busday_count(b, e)`: weekdays (Mon-Fri) in `[b, e)`, negative
when `e < b`.  1970-01-01 was a Thursday; with Monday = 0 a day
ordinal `o` falls on weekday `(o + 3) mod 7`. -/
def busdayCount (b e : PyDate) : Int :=
  let ob := toOrdinal b
  let oe := toOrdinal e
  if ob ≤ oe then
    (((List.range (oe - ob).toNat).filter
      (fun i => (ob + (i : Int) + 3) % 7 < 5)).length : Int)
  else
    -(((List.range (ob - oe).toNat).filter
      (fun i => (oe + (i : Int) + 3) % 7 < 5)).length : Int)

/-- Python's binary `max` on integers. -/
def pyMax (a b : Int) : Int := if a < b then b else a

/-- `PredictionService._parse_horizon` (prediction_service.py lines
27-61), with `today` made an explicit parameter (`datetime.now()`).
Note the quarter branch: `datetime(year, quarter*3, 1) +
timedelta(days=-1)` is the last day of the month BEFORE the quarter's
final month (e.g. Q4 2025 gives 2025-11-30), not the quarter's last
calendar day. -/
def parse_horizon (today : PyDate) (horizon_str : String) :
    Except PyErr (PyDate × Int) :=
  if (pyUpper horizon_str).toList.contains 'Q' then
    match pySplitWS (pyUpper horizon_str) with
    | [quarter, year] => do
      let quarter_num ← match pyParseInt ⟨quarter.toList.drop 1⟩ with
        | some n => Except.ok n
        | none => Except.error PyErr.valueError
      let year_num ← match pyParseInt year with
        | some n => Except.ok n
        | none => Except.error PyErr.valueError
      let quarter_end_month := quarter_num * 3
      let firstOfMonth ← mkDatetime year_num quarter_end_month 1
      let quarter_end_date := addDays firstOfMonth (-1)
      let business_days := busdayCount today quarter_end_date
      pure (quarter_end_date, pyMax 10 business_days)
    | _ => .error .valueError
  else if pyInStr "month" (pyLower horizon_str) then
    match pySplitWS horizon_str with
    | [] => .error .indexError
    | w :: _ =>
      match pyParseInt w with
      | some months =>
        let target_date := addDays today (30 * months)
        let business_days := busdayCount today target_date
        .ok (target_date, pyMax 10 business_days)
      | none => .error .valueError
  else
    .ok (addDays today 90, 60)

/-- C2 exhibit: the claim fails on the code.  Parsed on 2025-09-15
(before 2025-10-01), "Q4 2025" yields `target_date = 2025-11-30` —
the last day of the month BEFORE the quarter's final month — not the
quarter's last calendar day 2025-12-31 required by the claim, and the
step count is the business days to that wrong date (55, floored at
10).  The other branches behave as claimed: "3 months" gives
now + 90 days, and an unparsable expression gives now + 90 days with
the fixed step count 60. -/
theorem parse_horizon_q4_wrong_month :
    parse_horizon ⟨2025, 9, 15⟩ "Q4 2025" = .ok (⟨2025, 11, 30⟩, 55) ∧
    (⟨2025, 11, 30⟩ : PyDate) ≠ ⟨2025, 12, 31⟩ ∧
    parse_horizon ⟨2025, 9, 15⟩ "3 months" = .ok (⟨2025, 12, 14⟩, 65) ∧
    addDays ⟨2025, 9, 15⟩ 90 = ⟨2025, 12, 14⟩ ∧
    parse_horizon ⟨2025, 9, 15⟩ "soon" = .ok (⟨2025, 12, 14⟩, 60) := by
  refine ⟨rfl, by decide, rfl, rfl, rfl⟩
